import Mathlib

/-
  Shallow embedding of src/game.js (falling-drop arcade game).

  JavaScript numbers are modelled as exact rationals (ℚ): every arithmetic
  operation the game performs (+, -, *, comparison, Math.floor, Math.max,
  Math.min) is exact on the values involved, so ℚ is a faithful carrier.
  The canvas dimensions W and H (canvas.width / canvas.height) are set in
  the HTML page, which is not part of src/; per the DOM they are unsigned
  integers, so they are modelled as ℤ parameters.  Calls to Math.random()
  return a number in [0, 1); each physics step performs at most three
  independent draws (gap position, speed bump, interval shrink), modelled
  as an explicit record of rationals supplied to the step.  Rendering,
  DOM/overlay writes and the requestAnimationFrame loop are outside the
  simulation state and are not modelled.
-/

namespace WaterDrop

/-- The player-controlled drop: `drop = { x, y, r, vy, color }` in game.js
(the purely visual `color` field is omitted). -/
structure Drop where
  x : ℚ
  y : ℚ
  r : ℚ
  vy : ℚ
deriving DecidableEq, Repr

/-- One pipe-pair obstacle: `{ x, w, gapY, gapH, scored, type }` in game.js
(the `type` tag is the constant string 'pipe' and is omitted). -/
structure Obstacle where
  x : ℚ
  w : ℚ
  gapY : ℚ
  gapH : ℚ
  scored : Bool
deriving DecidableEq, Repr

/-- The module-level mutable game state of game.js: `drop`, `obstacles`,
`lastSpawn`, `spawnInterval`, `speed`, `running`, `score`.  (`lastTime` only
feeds the unused `dt` argument of `update` and is omitted; `gravity` and
`lift` are never reassigned and are modelled as constants.) -/
structure GameState where
  drop : Drop
  obstacles : List Obstacle
  lastSpawn : ℚ
  spawnInterval : ℚ
  speed : ℚ
  running : Bool
  score : ℕ
deriving DecidableEq, Repr

/-- The up-to-three `Math.random()` draws a single `update` call can make:
one for the spawned obstacle's gap position, one for the speed bump,
one for the interval shrink.  Each lies in [0, 1). -/
structure Rand where
  gapR : ℚ
  speedR : ℚ
  intervalR : ℚ
deriving DecidableEq, Repr

/-- `let gravity = 0.45` -/
def gravity : ℚ := 0.45

/-- `let lift = -8.8` -/
def lift : ℚ := -8.8

/-- The drop built by `reset()`: x=110, y=H/2, r=14, vy=0. -/
def initDrop (H : ℤ) : Drop :=
  { x := 110, y := (H : ℚ) / 2, r := 14, vy := 0 }

/-- `reset()` (game.js lines 32-49): fresh drop, empty obstacle list,
spawn timer set to the current time, score 0, running true, speed back to
2.2.  `spawnInterval` is NOT reassigned and keeps its previous value. -/
def reset (H : ℤ) (s : GameState) (now : ℚ) : GameState :=
  { drop := initDrop H
    obstacles := []
    lastSpawn := now
    score := 0
    running := true
    speed := 2.2
    spawnInterval := s.spawnInterval }

/-- `spawnObstacle` (game.js lines 51-65): gapHeight = 140, minGapY = 90,
maxGapY = H - 90 - gapHeight, gapY = floor(random * (maxGapY - minGapY + 1))
+ minGapY; the obstacle is pushed with x = W + 10, w = 84, scored = false.
`r` is the `Math.random()` draw. -/
def spawnObstacle (W H : ℤ) (r : ℚ) : Obstacle :=
  let gapHeight : ℚ := 140
  let minGapY : ℚ := 90
  let maxGapY : ℚ := (H : ℚ) - 90 - gapHeight
  let gapY : ℚ := ((⌊r * (maxGapY - minGapY + 1)⌋ : ℤ) : ℚ) + minGapY
  { x := (W : ℚ) + 10, w := 84, gapY := gapY, gapH := gapHeight, scored := false }

/-- `circleRectColliding` (game.js lines 67-74): clamp the circle centre
into the rectangle, then compare squared distance with r². -/
def circleRectColliding (cx cy r rx ry rw rh : ℚ) : Bool :=
  let closestX := max rx (min cx (rx + rw))
  let closestY := max ry (min cy (ry + rh))
  let dx := cx - closestX
  let dy := cy - closestY
  decide (dx * dx + dy * dy ≤ r * r)

/-- One iteration of the obstacle loop body (game.js lines 93-104) for a
single obstacle: move it left by `speed`, then mark it scored (reporting
whether the flag newly flipped) when its trailing edge has passed the
drop's leading edge. -/
def processObstacle (d : Drop) (speed : ℚ) (ob : Obstacle) : Obstacle × Bool :=
  let x' := ob.x - speed
  let newly := !ob.scored && decide (x' + ob.w < d.x - d.r)
  ({ ob with x := x', scored := ob.scored || newly }, newly)

/-- The obstacle loop of `update` (game.js lines 93-104).  The source
iterates by descending index and uses `splice` to drop off-screen
obstacles, which touches only the current element, so it is equivalent to
this structural recursion: each obstacle is moved, possibly scored, and
kept unless its trailing edge is past -50.  Returns the surviving list
(in the original order) and the number of obstacles newly scored, which
the source adds to `score` one at a time. -/
def moveObstacles (d : Drop) (speed : ℚ) : List Obstacle → List Obstacle × ℕ
  | [] => ([], 0)
  | ob :: rest =>
    let p := processObstacle d speed ob
    let m := moveObstacles d speed rest
    let n := m.2 + (if p.2 then 1 else 0)
    if p.1.x + p.1.w < -50 then (m.1, n) else (p.1 :: m.1, n)

/-- The fate of a single obstacle in one pass of the obstacle loop: `none`
when the moved obstacle is pruned (`x + w < -50`), otherwise the moved,
possibly newly scored obstacle.  `moveObstacles` is exactly `filterMap` of
this function (proved below). -/
def keepObstacle (d : Drop) (speed : ℚ) (ob : Obstacle) : Option Obstacle :=
  let p := processObstacle d speed ob
  if p.1.x + p.1.w < -50 then none else some p.1

/-- The collision test of `update` (game.js lines 107-118) for one
obstacle: drop circle vs. top rectangle (0 to gapY) and bottom rectangle
(gapY + gapH down to H). -/
def hitsObstacle (H : ℤ) (d : Drop) (ob : Obstacle) : Bool :=
  circleRectColliding d.x d.y d.r ob.x 0 ob.w ob.gapY ||
    circleRectColliding d.x d.y d.r ob.x (ob.gapY + ob.gapH) ob.w
      ((H : ℚ) - (ob.gapY + ob.gapH))

/-- The integration step of `update` (game.js lines 80-81):
`drop.vy += gravity; drop.y += drop.vy`. -/
def integrate (d : Drop) : Drop :=
  { d with vy := d.vy + gravity, y := d.y + (d.vy + gravity) }

/-- The spawn-gate condition of `update` (game.js line 84):
`now - lastSpawn > spawnInterval`, evaluated on the pre-step state. -/
def spawnFires (s : GameState) (now : ℚ) : Bool :=
  decide (now - s.lastSpawn > s.spawnInterval)

/-- The obstacle list after the spawn gate (game.js lines 84-86): when the
gate fires, the new obstacle is pushed onto the end of the array before the
move loop runs. -/
def obsAfterSpawn (W H : ℤ) (s : GameState) (rnd : Rand) (now : ℚ) : List Obstacle :=
  if spawnFires s now then s.obstacles ++ [spawnObstacle W H rnd.gapR]
  else s.obstacles

/-- `lastSpawn` after the spawn gate (game.js line 86). -/
def lastSpawnAfter (s : GameState) (now : ℚ) : ℚ :=
  if spawnFires s now then now else s.lastSpawn

/-- `speed` after the spawn gate (game.js line 88): on a spawn event, with
probability 0.12, `speed += 0.05`. -/
def speedAfterSpawn (s : GameState) (rnd : Rand) (now : ℚ) : ℚ :=
  if spawnFires s now && decide (rnd.speedR < 0.12) then s.speed + 0.05
  else s.speed

/-- `spawnInterval` after the spawn gate (game.js line 89): on a spawn
event, with probability 0.07, `spawnInterval = max(900, spawnInterval - 20)`. -/
def intervalAfterSpawn (s : GameState) (rnd : Rand) (now : ℚ) : ℚ :=
  if spawnFires s now && decide (rnd.intervalR < 0.07) then
    max 900 (s.spawnInterval - 20)
  else s.spawnInterval

/-- `update(dt, now)` (game.js lines 76-125).  Returns immediately when not
running.  Otherwise: integrate gravity; if `now - lastSpawn >
spawnInterval` push a new obstacle, reset the spawn timer and apply the two
probabilistic difficulty drifts; run the obstacle move/score/prune loop
(which sees the freshly pushed obstacle and the freshly bumped speed);
then end the game (running := false) on any pipe collision or when the drop
is past the bottom (`y - r > H`) or above the top (`y + r < 0`).  The `dt`
argument of the source is unused by the physics and omitted here. -/
def update (W H : ℤ) (s : GameState) (rnd : Rand) (now : ℚ) : GameState :=
  if s.running then
    let d := integrate s.drop
    let mv := moveObstacles d (speedAfterSpawn s rnd now) (obsAfterSpawn W H s rnd now)
    let hit := mv.1.any (hitsObstacle H d)
    let oob := decide ((H : ℚ) < d.y - d.r) || decide (d.y + d.r < 0)
    { drop := d
      obstacles := mv.1
      lastSpawn := lastSpawnAfter s now
      spawnInterval := intervalAfterSpawn s rnd now
      speed := speedAfterSpawn s rnd now
      running := !(hit || oob)
      score := s.score + mv.2 }
  else s

/-- `flap()` (game.js lines 189-196): when not running, start a new run via
`reset()`; while running, set the drop's vertical velocity to `lift`. -/
def flap (H : ℤ) (s : GameState) (now : ℚ) : GameState :=
  if s.running then { s with drop := { s.drop with vy := lift } } else reset H s now

/-- The observable game state right after the script loads: the
module-level initializers (spawnInterval = 1400, speed = 2.2, score = 0,
obstacles = [], running = false) followed by the immediate `reset()` call
at the bottom of the file. -/
def initState (H : ℤ) (now : ℚ) : GameState :=
  reset H
    { drop := initDrop H
      obstacles := []
      lastSpawn := 0
      spawnInterval := 1400
      speed := 2.2
      running := false
      score := 0 } now

/-- The specification's description of the geometry test, stated
independently of the code: clamp the circle centre into the rectangle and
compare the squared Euclidean distance to that nearest point with r². -/
def circleIntersectsRectSpec (cx cy r rx ry rw rh : ℚ) : Prop :=
  (cx - max rx (min cx (rx + rw))) ^ 2 + (cy - max ry (min cy (ry + rh))) ^ 2 ≤ r ^ 2

/-- The spec's spawn-time gap invariant for an obstacle:
`minGapMargin ≤ gapTopY` and `gapTopY + gapHeight ≤ playHeight − minGapMargin`. -/
def gapOK (H : ℤ) (ob : Obstacle) : Prop :=
  90 ≤ ob.gapY ∧ ob.gapY + ob.gapH ≤ (H : ℚ) - 90

/-- A running state whose drop, after this frame's integration, sits with
its centre exactly on the bottom edge (y = 480 = H): lowest point 494 is
past the bottom edge, highest point 466 is not. -/
def overhangState : GameState :=
  { drop := { x := 110, y := 9591 / 20, r := 14, vy := 0 }
    obstacles := []
    lastSpawn := 0
    spawnInterval := 1400
    speed := 2.2
    running := true
    score := 0 }

/-- A running state whose drop, after this frame's integration, is fully
below the bottom edge (y = 1000.45, so y - r = 986.45 > 480). -/
def sunkState : GameState :=
  { drop := { x := 110, y := 1000, r := 14, vy := 0 }
    obstacles := []
    lastSpawn := 0
    spawnInterval := 1400
    speed := 2.2
    running := true
    score := 0 }

/-- A running state whose spawn gate fires at `now = 1500`
(1500 − 0 > 1400). -/
def spawnDueState : GameState :=
  { drop := { x := 110, y := 240, r := 14, vy := 0 }
    obstacles := []
    lastSpawn := 0
    spawnInterval := 1400
    speed := 2.2
    running := true
    score := 0 }

/-- Random draws that trigger neither difficulty drift (both ≥ the
respective probabilities) and pick the lowest gap position. -/
def noDriftRand : Rand := { gapR := 0, speedR := 1, intervalR := 1 }

/-- A running state holding one obstacle well to the right of the drop;
the spawn gate does not fire at `now = 100`. -/
def obstacleState : GameState :=
  { drop := { x := 110, y := 240, r := 14, vy := 0 }
    obstacles := [{ x := 282, w := 84, gapY := 90, gapH := 140, scored := false }]
    lastSpawn := 0
    spawnInterval := 1400
    speed := 2.2
    running := true
    score := 0 }

/-- The obstacle loop is the `filterMap` of the per-obstacle fate, and the
number of points it awards is the count of obstacles whose scored flag
newly flips in this pass. -/
theorem moveObstacles_eq (d : Drop) (speed : ℚ) (l : List Obstacle) :
    moveObstacles d speed l =
      (l.filterMap (keepObstacle d speed),
       l.countP fun ob => (processObstacle d speed ob).2) := by
  induction l with
  | nil => simp [moveObstacles]
  | cons ob rest ih =>
    simp only [moveObstacles, ih, keepObstacle, List.filterMap_cons, List.countP_cons]
    by_cases h : (processObstacle d speed ob).1.x + (processObstacle d speed ob).1.w < -50 <;>
      simp [h]

/-- Unfolding of `update` on a running state. -/
theorem update_of_running (W H : ℤ) (s : GameState) (rnd : Rand) (now : ℚ)
    (h : s.running = true) :
    update W H s rnd now =
      { drop := integrate s.drop
        obstacles := (moveObstacles (integrate s.drop) (speedAfterSpawn s rnd now)
          (obsAfterSpawn W H s rnd now)).1
        lastSpawn := lastSpawnAfter s now
        spawnInterval := intervalAfterSpawn s rnd now
        speed := speedAfterSpawn s rnd now
        running := !((moveObstacles (integrate s.drop) (speedAfterSpawn s rnd now)
            (obsAfterSpawn W H s rnd now)).1.any (hitsObstacle H (integrate s.drop)) ||
          (decide ((H : ℚ) < (integrate s.drop).y - (integrate s.drop).r) ||
            decide ((integrate s.drop).y + (integrate s.drop).r < 0)))
        score := s.score + (moveObstacles (integrate s.drop) (speedAfterSpawn s rnd now)
          (obsAfterSpawn W H s rnd now)).2 } := by
  simp only [update, h, if_true]

/-- Unfolding of `update` on a non-running state. -/
theorem update_of_not_running (W H : ℤ) (s : GameState) (rnd : Rand) (now : ℚ)
    (h : s.running = false) :
    update W H s rnd now = s := by
  simp [update, h]

/-- Moving an obstacle decrements its x by the current speed. -/
theorem processObstacle_x (d : Drop) (speed : ℚ) (ob : Obstacle) :
    ((processObstacle d speed ob).1).x = ob.x - speed := rfl

/-- Moving an obstacle keeps its width. -/
theorem processObstacle_w (d : Drop) (speed : ℚ) (ob : Obstacle) :
    ((processObstacle d speed ob).1).w = ob.w := rfl

/-- Moving an obstacle keeps its gap position. -/
theorem processObstacle_gapY (d : Drop) (speed : ℚ) (ob : Obstacle) :
    ((processObstacle d speed ob).1).gapY = ob.gapY := rfl

/-- Moving an obstacle keeps its gap height. -/
theorem processObstacle_gapH (d : Drop) (speed : ℚ) (ob : Obstacle) :
    ((processObstacle d speed ob).1).gapH = ob.gapH := rfl

/-- The scored flag after one loop pass: the old flag, or-ed with the
pass-the-drop test at the obstacle's new position. -/
theorem processObstacle_scored (d : Drop) (speed : ℚ) (ob : Obstacle) :
    ((processObstacle d speed ob).1).scored =
      (ob.scored || decide (ob.x - speed + ob.w < d.x - d.r)) := by
  cases h : ob.scored <;> simp [processObstacle, h]

/-- The newly-scored indicator of one loop pass. -/
theorem processObstacle_newly (d : Drop) (speed : ℚ) (ob : Obstacle) :
    (processObstacle d speed ob).2 =
      (!ob.scored && decide (ob.x - speed + ob.w < d.x - d.r)) := rfl

/-- What it means for the per-obstacle fate to keep an obstacle. -/
theorem keepObstacle_eq_some (d : Drop) (speed : ℚ) (ob ob' : Obstacle)
    (h : keepObstacle d speed ob = some ob') :
    ob' = (processObstacle d speed ob).1 ∧
      ¬ ((processObstacle d speed ob).1.x + (processObstacle d speed ob).1.w < -50) := by
  unfold keepObstacle at h
  by_cases hc : (processObstacle d speed ob).1.x + (processObstacle d speed ob).1.w < -50
  · simp [hc] at h
  · simp [hc] at h
    exact ⟨h.symm, hc⟩

/-- A freshly generated obstacle satisfies the spec's gap invariant, for
every random draw in [0, 1), provided the play area is at least
90 + 140 + 90 = 320 tall. -/
theorem spawnObstacle_gapOK (W H : ℤ) (r : ℚ) (h0 : 0 ≤ r) (h1 : r < 1)
    (hH : 320 ≤ H) : gapOK H (spawnObstacle W H r) := by
  have hq : (320 : ℚ) ≤ (H : ℚ) := by exact_mod_cast hH
  have hc : (0 : ℚ) < (H : ℚ) - 90 - 140 - 90 + 1 := by linarith
  have hx0 : (0 : ℚ) ≤ r * ((H : ℚ) - 90 - 140 - 90 + 1) := mul_nonneg h0 hc.le
  have hfl0 : (0 : ℤ) ≤ ⌊r * ((H : ℚ) - 90 - 140 - 90 + 1)⌋ := Int.floor_nonneg.mpr hx0
  have hxlt : r * ((H : ℚ) - 90 - 140 - 90 + 1) < (H : ℚ) - 90 - 140 - 90 + 1 :=
    mul_lt_of_lt_one_left hc h1
  have hxlt' : r * ((H : ℚ) - 90 - 140 - 90 + 1) < ((H - 319 : ℤ) : ℚ) := by
    push_cast
    linarith
  have hfl : ⌊r * ((H : ℚ) - 90 - 140 - 90 + 1)⌋ < H - 319 := Int.floor_lt.mpr hxlt'
  have hfl' : ⌊r * ((H : ℚ) - 90 - 140 - 90 + 1)⌋ ≤ H - 320 := by omega
  have hcast0 : (0 : ℚ) ≤ ((⌊r * ((H : ℚ) - 90 - 140 - 90 + 1)⌋ : ℤ) : ℚ) := by
    exact_mod_cast hfl0
  have hcast1 : ((⌊r * ((H : ℚ) - 90 - 140 - 90 + 1)⌋ : ℤ) : ℚ) ≤ (H : ℚ) - 320 := by
    exact_mod_cast hfl'
  constructor
  · show (90 : ℚ) ≤ (spawnObstacle W H r).gapY
    simp only [spawnObstacle]
    linarith
  · show (spawnObstacle W H r).gapY + (spawnObstacle W H r).gapH ≤ (H : ℚ) - 90
    simp only [spawnObstacle]
    linarith

/-- The obstacle collection after a running step, as a `filterMap`. -/
theorem update_obstacles_of_running (W H : ℤ) (s : GameState) (rnd : Rand)
    (now : ℚ) (h : s.running = true) :
    (update W H s rnd now).obstacles =
      List.filterMap (keepObstacle (integrate s.drop) (speedAfterSpawn s rnd now))
        (obsAfterSpawn W H s rnd now) := by
  rw [update_of_running W H s rnd now h]
  show (moveObstacles (integrate s.drop) (speedAfterSpawn s rnd now)
    (obsAfterSpawn W H s rnd now)).1 = _
  rw [moveObstacles_eq]

/-- The spawn interval after one step: either untouched, or shrunk by 20
and floored at 900. -/
theorem update_spawnInterval_cases (W H : ℤ) (s : GameState) (rnd : Rand)
    (now : ℚ) :
    (update W H s rnd now).spawnInterval = s.spawnInterval ∨
      (update W H s rnd now).spawnInterval = max 900 (s.spawnInterval - 20) := by
  cases hr : s.running with
  | false => rw [update_of_not_running W H s rnd now hr]; left; rfl
  | true =>
    rw [update_of_running W H s rnd now hr]
    show intervalAfterSpawn s rnd now = _ ∨ intervalAfterSpawn s rnd now = _
    unfold intervalAfterSpawn
    by_cases hc : (spawnFires s now && decide (rnd.intervalR < 0.07)) = true
    · rw [if_pos hc]; right; rfl
    · rw [if_neg hc]; left; rfl

/-- `flap` never touches the spawn interval: while running it only writes
the drop's velocity, and while idle it calls `reset`, which keeps it. -/
theorem flap_spawnInterval (H : ℤ) (s : GameState) (now : ℚ) :
    (flap H s now).spawnInterval = s.spawnInterval := by
  cases hr : s.running with
  | true => simp [flap, hr]
  | false => simp [flap, hr, reset]

/-- Claim C3: `circleRectColliding` returns true iff the squared distance from
the circle centre to its clamp into the rectangle is at most r²; the drop
(110, 100, r=14) collides with the rectangle (100, 0, 84, 90); and that
drop hits neither rectangle of an obstacle at x=100 with gapY=50,
gapH=140 (play height 480). -/
theorem C3_circle_rect_test :
    (∀ cx cy r rx ry rw rh : ℚ,
      circleRectColliding cx cy r rx ry rw rh = true ↔
        circleIntersectsRectSpec cx cy r rx ry rw rh) ∧
    circleRectColliding 110 100 14 100 0 84 90 = true ∧
    hitsObstacle 480 { x := 110, y := 100, r := 14, vy := 0 }
      { x := 100, w := 84, gapY := 50, gapH := 140, scored := false } = false := by
  refine ⟨fun cx cy r rx ry rw rh => ?_, ?_, ?_⟩
  · simp [circleRectColliding, circleIntersectsRectSpec, pow_two]
  · with_unfolding_all decide
  · with_unfolding_all decide

/-- Claim C5: while running, an activate action sets the drop's vertical
velocity to exactly -8.8 and leaves every other part of the simulation
state unchanged. -/
theorem C5_flap_while_running (H : ℤ) (s : GameState) (now : ℚ)
    (h : s.running = true) :
    (flap H s now).drop.vy = -8.8 ∧
    (flap H s now).drop.x = s.drop.x ∧
    (flap H s now).drop.y = s.drop.y ∧
    (flap H s now).drop.r = s.drop.r ∧
    (flap H s now).score = s.score ∧
    (flap H s now).obstacles = s.obstacles ∧
    (flap H s now).speed = s.speed ∧
    (flap H s now).spawnInterval = s.spawnInterval ∧
    (flap H s now).lastSpawn = s.lastSpawn ∧
    (flap H s now).running = s.running := by
  simp [flap, h, lift]

/-- Witness for C5 at a concrete running state. -/
theorem C5_flap_while_running_witness :
    (flap 480 spawnDueState 7).drop.vy = -8.8 ∧
    (flap 480 spawnDueState 7).drop.x = spawnDueState.drop.x ∧
    (flap 480 spawnDueState 7).drop.y = spawnDueState.drop.y ∧
    (flap 480 spawnDueState 7).drop.r = spawnDueState.drop.r ∧
    (flap 480 spawnDueState 7).score = spawnDueState.score ∧
    (flap 480 spawnDueState 7).obstacles = spawnDueState.obstacles ∧
    (flap 480 spawnDueState 7).speed = spawnDueState.speed ∧
    (flap 480 spawnDueState 7).spawnInterval = spawnDueState.spawnInterval ∧
    (flap 480 spawnDueState 7).lastSpawn = spawnDueState.lastSpawn ∧
    (flap 480 spawnDueState 7).running = spawnDueState.running :=
  C5_flap_while_running 480 spawnDueState 7 rfl

/-- Claim C7: the physics step on a non-running state changes nothing at all. -/
theorem C7_step_noop_when_idle (W H : ℤ) (s : GameState) (rnd : Rand)
    (now : ℚ) (h : s.running = false) :
    update W H s rnd now = s :=
  update_of_not_running W H s rnd now h

/-- Witness for C7 at a concrete idle state. -/
theorem C7_step_noop_when_idle_witness :
    update 320 480 { spawnDueState with running := false } noDriftRand 1500 =
      { spawnDueState with running := false } :=
  C7_step_noop_when_idle 320 480 { spawnDueState with running := false }
    noDriftRand 1500 rfl

/-- Counterexample to C1 as stated: a running state whose drop, after this
frame's integration, has its lowest point y + r = 494 past the bottom edge
H = 480 (while y - r = 466 is still inside), yet the step leaves
running = true. -/
theorem C1_counterexample :
    overhangState.running = true ∧
    (480 : ℚ) <
      (update 320 480 overhangState noDriftRand 100).drop.y +
        (update 320 480 overhangState noDriftRand 100).drop.r ∧
    (update 320 480 overhangState noDriftRand 100).running = true := by
  refine ⟨rfl, ?_, ?_⟩ <;> with_unfolding_all decide

/-- Amended C1: the step ends the run whenever, after this frame's
integration, the drop's highest point y - r is below the bottom edge H or
its lowest point y + r is above the top edge 0 — that is, once the drop is
entirely outside the play area. -/
theorem C1_boundary_ends_run (W H : ℤ) (s : GameState) (rnd : Rand) (now : ℚ)
    (h : s.running = true)
    (hb : (H : ℚ) < (integrate s.drop).y - (integrate s.drop).r ∨
      (integrate s.drop).y + (integrate s.drop).r < 0) :
    (update W H s rnd now).running = false := by
  rw [update_of_running W H s rnd now h]
  rcases hb with hb | hb <;> simp [hb]

/-- Witness for the amended C1: a drop fully below the bottom edge ends
the run. -/
theorem C1_boundary_ends_run_witness :
    (update 320 480 sunkState noDriftRand 100).running = false :=
  C1_boundary_ends_run 320 480 sunkState noDriftRand 100 rfl
    (Or.inl (by with_unfolding_all decide))

/-- Counterexample to C2 as stated: a frame in which the spawn gate fires
(1500 − 0 > 1400), yet the freshly spawned obstacle ends the step at
x = 327.8 = (W + 10) − speed, not at its spawn x = W + 10 = 330: the push
happens before the move loop, which therefore moves the new obstacle too. -/
theorem C2_counterexample :
    spawnDueState.running = true ∧
    (1500 : ℚ) - spawnDueState.lastSpawn > spawnDueState.spawnInterval ∧
    (update 320 480 spawnDueState noDriftRand 1500).obstacles =
      [{ x := 327.8, w := 84, gapY := 90, gapH := 140, scored := false }] ∧
    (327.8 : ℚ) ≠ (320 : ℚ) + 10 := by
  refine ⟨rfl, ?_, ?_, ?_⟩ <;>
    · set_option maxRecDepth 4000 in with_unfolding_all decide

/-- Amended C2: in a frame in which the spawn gate fires, the fresh
obstacle is pushed before the move loop and is therefore moved in that same
frame: at the end of the step it is the last element of the collection and
its x is (W + 10) − speed (the speed in effect after this spawn's possible
bump, which is also the step's resulting speed), not W + 10.  The
hypothesis `hk` says the fresh obstacle is not already past the prune line,
which holds for any actual canvas width. -/
theorem C2_spawned_obstacle_moved_same_frame (W H : ℤ) (s : GameState)
    (rnd : Rand) (now : ℚ) (h : s.running = true)
    (hs : now - s.lastSpawn > s.spawnInterval)
    (hk : ¬ ((W : ℚ) + 10 - speedAfterSpawn s rnd now + 84 < -50)) :
    (update W H s rnd now).obstacles.getLast? = some
      { x := (W : ℚ) + 10 - speedAfterSpawn s rnd now
        w := 84
        gapY := (spawnObstacle W H rnd.gapR).gapY
        gapH := 140
        scored := decide ((W : ℚ) + 10 - speedAfterSpawn s rnd now + 84 <
          s.drop.x - s.drop.r) } ∧
    (update W H s rnd now).speed = speedAfterSpawn s rnd now := by
  have hfire : spawnFires s now = true := decide_eq_true hs
  rw [update_of_running W H s rnd now h]
  have hobs : obsAfterSpawn W H s rnd now =
      s.obstacles ++ [spawnObstacle W H rnd.gapR] := by
    simp [obsAfterSpawn, hfire]
  refine ⟨?_, rfl⟩
  rw [moveObstacles_eq, hobs]
  rw [List.filterMap_append]
  have hkeep : keepObstacle (integrate s.drop) (speedAfterSpawn s rnd now)
      (spawnObstacle W H rnd.gapR) =
      some ((processObstacle (integrate s.drop) (speedAfterSpawn s rnd now)
        (spawnObstacle W H rnd.gapR)).1) := by
    unfold keepObstacle
    rw [if_neg]
    rw [processObstacle_x, processObstacle_w]
    exact hk
  rw [show List.filterMap
        (keepObstacle (integrate s.drop) (speedAfterSpawn s rnd now))
        [spawnObstacle W H rnd.gapR] =
      [(processObstacle (integrate s.drop) (speedAfterSpawn s rnd now)
        (spawnObstacle W H rnd.gapR)).1] from by
    simp [List.filterMap, hkeep]]
  rw [List.getLast?_concat]
  congr 1

/-- Witness for the amended C2: concrete spawn frame in which the fresh
obstacle ends the step at x = 327.8 and the step's speed is 2.2. -/
theorem C2_spawned_obstacle_moved_same_frame_witness :
    (update 320 480 spawnDueState noDriftRand 1500).obstacles.getLast? = some
      { x := (320 : ℚ) + 10 - speedAfterSpawn spawnDueState noDriftRand 1500
        w := 84
        gapY := (spawnObstacle 320 480 noDriftRand.gapR).gapY
        gapH := 140
        scored := decide ((320 : ℚ) + 10 -
          speedAfterSpawn spawnDueState noDriftRand 1500 + 84 <
          spawnDueState.drop.x - spawnDueState.drop.r) } ∧
    (update 320 480 spawnDueState noDriftRand 1500).speed =
      speedAfterSpawn spawnDueState noDriftRand 1500 :=
  C2_spawned_obstacle_moved_same_frame 320 480 spawnDueState noDriftRand 1500
    rfl (by with_unfolding_all decide) (by with_unfolding_all decide)

/-- Claim C4: for every random draw in [0, 1) the generated obstacle's gap
position is within the spec's bounds (play height at least 320), and the
bound is preserved by the physics step: if every obstacle in a state
satisfies it, so does every obstacle after `update`. -/
theorem C4_gap_invariant (W H : ℤ) (r : ℚ) (s : GameState) (rnd : Rand)
    (now : ℚ) (ob : Obstacle)
    (h0 : 0 ≤ r) (h1 : r < 1) (hH : 320 ≤ H)
    (hg0 : 0 ≤ rnd.gapR) (hg1 : rnd.gapR < 1)
    (hinv : ∀ o ∈ s.obstacles, gapOK H o)
    (hmem : ob ∈ (update W H s rnd now).obstacles) :
    gapOK H (spawnObstacle W H r) ∧ gapOK H ob := by
  refine ⟨spawnObstacle_gapOK W H r h0 h1 hH, ?_⟩
  cases hr : s.running with
  | false =>
    rw [update_of_not_running W H s rnd now hr] at hmem
    exact hinv ob hmem
  | true =>
    rw [update_obstacles_of_running W H s rnd now hr] at hmem
    rw [List.mem_filterMap] at hmem
    obtain ⟨a, ha, hka⟩ := hmem
    obtain ⟨hob, -⟩ := keepObstacle_eq_some _ _ _ _ hka
    have hgood : gapOK H a := by
      unfold obsAfterSpawn at ha
      split at ha
      · rcases List.mem_append.mp ha with hmem' | hmem'
        · exact hinv a hmem'
        · rw [List.mem_singleton.mp hmem']
          exact spawnObstacle_gapOK W H rnd.gapR hg0 hg1 hH
      · exact hinv a ha
    rw [hob]
    unfold gapOK
    rw [processObstacle_gapY, processObstacle_gapH]
    exact hgood

/-- Witness for C4 at H = 480, r = 1/2, and a concrete spawn frame whose
sole resulting obstacle is the freshly spawned one. -/
theorem C4_gap_invariant_witness :
    gapOK 480 (spawnObstacle 320 480 (1 / 2)) ∧
      gapOK 480 { x := 327.8, w := 84, gapY := 90, gapH := 140, scored := false } :=
  C4_gap_invariant 320 480 (1 / 2) spawnDueState noDriftRand 1500
    { x := 327.8, w := 84, gapY := 90, gapH := 140, scored := false }
    (by norm_num) (by norm_num) (by norm_num)
    (by with_unfolding_all decide) (by with_unfolding_all decide)
    (by simp [spawnDueState])
    (by set_option maxRecDepth 4000 in with_unfolding_all decide)

/-- Claim C6: the obstacle loop is a per-obstacle `filterMap` whose score payout
is exactly the number of obstacles whose flag newly flips this pass; a
pass sets `scored` to the old flag or-ed with the trailing-edge test at the
new position (so a set flag never reverts, and a transition happens exactly
in the step in which the trailing edge is past the drop's leading edge);
the newly-scored indicator requires the flag to have been false; the score
never decreases across a step; and `reset` (the Idle→Running transition)
sets it to 0. -/
theorem C6_scored_transitions (H : ℤ) :
    (∀ (d : Drop) (sp : ℚ) (l : List Obstacle),
      moveObstacles d sp l =
        (l.filterMap (keepObstacle d sp),
         l.countP fun ob => (processObstacle d sp ob).2)) ∧
    (∀ (d : Drop) (sp : ℚ) (ob : Obstacle),
      ((processObstacle d sp ob).1).scored =
        (ob.scored || decide (ob.x - sp + ob.w < d.x - d.r))) ∧
    (∀ (d : Drop) (sp : ℚ) (ob : Obstacle),
      (processObstacle d sp ob).2 =
        (!ob.scored && decide (ob.x - sp + ob.w < d.x - d.r))) ∧
    (∀ (W' : ℤ) (s : GameState) (rnd : Rand) (now : ℚ),
      s.score ≤ (update W' H s rnd now).score) ∧
    (∀ (s : GameState) (now : ℚ), (reset H s now).score = 0) := by
  refine ⟨moveObstacles_eq, processObstacle_scored, processObstacle_newly, ?_,
    fun s now => rfl⟩
  intro W' s rnd now
  cases hr : s.running with
  | false => rw [update_of_not_running W' H s rnd now hr]
  | true =>
    rw [update_of_running W' H s rnd now hr]
    exact Nat.le_add_right _ _

/-- Claim C8: the spawn interval starts at 1400; a step either leaves it alone or
replaces it with max(900, interval − 20); hence the floor 900 is preserved
by every step; and neither `reset` nor `flap` changes it. -/
theorem C8_spawn_interval_floor (W H : ℤ) :
    (∀ now : ℚ, (initState H now).spawnInterval = 1400) ∧
    (∀ (s : GameState) (rnd : Rand) (now : ℚ),
      (update W H s rnd now).spawnInterval = s.spawnInterval ∨
      (update W H s rnd now).spawnInterval = max 900 (s.spawnInterval - 20)) ∧
    (∀ (s : GameState) (rnd : Rand) (now : ℚ), 900 ≤ s.spawnInterval →
      900 ≤ (update W H s rnd now).spawnInterval) ∧
    (∀ (s : GameState) (now : ℚ), (reset H s now).spawnInterval = s.spawnInterval) ∧
    (∀ (s : GameState) (now : ℚ), (flap H s now).spawnInterval = s.spawnInterval) := by
  refine ⟨fun now => rfl, update_spawnInterval_cases W H, ?_,
    fun s now => rfl, flap_spawnInterval H⟩
  intro s rnd now h9
  rcases update_spawnInterval_cases W H s rnd now with he | he
  · rw [he]; exact h9
  · rw [he]; exact le_max_left _ _

/-- Witness for C8: the floor holds after a concrete spawn frame. -/
theorem C8_spawn_interval_floor_witness :
    900 ≤ (update 320 480 spawnDueState noDriftRand 1500).spawnInterval :=
  (C8_spawn_interval_floor 320 480).2.2.1 spawnDueState noDriftRand 1500
    (by with_unfolding_all decide)

/-- Claim C9: after a running physics step, no obstacle with trailing edge past
-50 remains in the collection — the loop prunes every such obstacle in the
same step. -/
theorem C9_offscreen_pruned (W H : ℤ) (s : GameState) (rnd : Rand) (now : ℚ)
    (h : s.running = true) (ob : Obstacle)
    (hmem : ob ∈ (update W H s rnd now).obstacles) :
    ¬ (ob.x + ob.w < -50) := by
  rw [update_obstacles_of_running W H s rnd now h] at hmem
  rw [List.mem_filterMap] at hmem
  obtain ⟨a, -, hka⟩ := hmem
  obtain ⟨hob, hkept⟩ := keepObstacle_eq_some _ _ _ _ hka
  rw [hob]
  exact hkept

/-- Witness for C9: the surviving obstacle of a concrete step is within
the prune line. -/
theorem C9_offscreen_pruned_witness : ¬ ((279.8 : ℚ) + 84 < -50) :=
  C9_offscreen_pruned 320 480 obstacleState noDriftRand 100 rfl
    { x := 279.8, w := 84, gapY := 90, gapH := 140, scored := false }
    (by set_option maxRecDepth 4000 in with_unfolding_all decide)

/-- Claim C10: `reset` restores speed 2.2, score 0, the initial drop, and an
empty obstacle list, but keeps the previous run's `spawnInterval`; and no
operation increases the spawn interval (for `update`, on any state
satisfying the reachable floor 900 ≤ spawnInterval). -/
theorem C10_reset_keeps_interval (W H : ℤ) (s : GameState) (now : ℚ) :
    (reset H s now).speed = 2.2 ∧
    (reset H s now).score = 0 ∧
    (reset H s now).drop = initDrop H ∧
    (reset H s now).obstacles = [] ∧
    (reset H s now).spawnInterval = s.spawnInterval ∧
    (∀ (rnd : Rand) (t : ℚ), 900 ≤ s.spawnInterval →
      (update W H s rnd t).spawnInterval ≤ s.spawnInterval) ∧
    (∀ t : ℚ, (flap H s t).spawnInterval = s.spawnInterval) := by
  refine ⟨rfl, rfl, rfl, rfl, rfl, ?_, fun t => flap_spawnInterval H s t⟩
  intro rnd t h9
  rcases update_spawnInterval_cases W H s rnd t with he | he
  · rw [he]
  · rw [he]
    exact max_le h9 (by linarith)

/-- Witness for C10: after a concrete spawn frame the interval has not
grown. -/
theorem C10_reset_keeps_interval_witness :
    (update 320 480 spawnDueState noDriftRand 1500).spawnInterval ≤
      spawnDueState.spawnInterval :=
  (C10_reset_keeps_interval 320 480 spawnDueState 0).2.2.2.2.2.1 noDriftRand 1500
    (by with_unfolding_all decide)

end WaterDrop
